import Mathlib

/-!
Verification of the Inceptra server's request orchestration layer.

The definitions below are a shallow embedding of the TypeScript source:
the per-route provider fallback loops (`src/routes/image.ts`,
`src/routes/bgRemove.ts`, `src/routes/resume.ts`), the daily quota
middleware (`src/middleware/rateLimit.ts`), and the history listing
endpoint (`src/routes/history.ts`).
-/

namespace Inceptra

/-- Error observed from a provider call: the thrown error's `message`
and (when present) `error.response.status`. -/
structure ProviderError where
  message : String
  responseStatus : Option Nat
deriving DecidableEq, Repr

/-- The error produced when the timeout promise wins the race:
`new Error("Request timeout")`, which carries no HTTP response. -/
def timeoutError : ProviderError := ⟨"Request timeout", none⟩

/-- What one candidate attempt does: the timer fires first, the call
completes with a payload, or the call completes with an error. -/
inductive AttemptResult (α : Type) where
  | timeout
  | ok (payload : α)
  | err (e : ProviderError)
deriving DecidableEq, Repr

/-- One configured provider candidate: model identifier and timeout (ms). -/
structure Candidate where
  model : String
  timeoutMs : Nat
deriving DecidableEq, Repr

/-- Overall result of walking the candidate list. -/
inductive ExecResult (α : Type) where
  | success (payload : α)
  | allFailed (lastError : Option ProviderError)
deriving DecidableEq, Repr

/-- The fallback loop shared by the three generation routes.  `retryable`
is the route's catch-clause classifier (`continue` vs `break`),
`behavior` gives each candidate's attempt result, the second component
counts how many candidates were attempted.  On a retryable failure the
loop advances carrying the failure as `lastError`; on a non-retryable
failure it breaks, and the missing response is then thrown — the route
answers with the last observed error. -/
def runFallback (retryable : ProviderError → Bool) (behavior : Candidate → AttemptResult α) :
    List Candidate → Option ProviderError → ExecResult α × Nat
  | [], last => (.allFailed last, 0)
  | c :: rest, _ =>
    match behavior c with
    | .ok p => (.success p, 1)
    | .timeout =>
      if retryable timeoutError then
        let r := runFallback retryable behavior rest (some timeoutError)
        (r.1, r.2 + 1)
      else (.allFailed (some timeoutError), 1)
    | .err e =>
      if retryable e then
        let r := runFallback retryable behavior rest (some e)
        (r.1, r.2 + 1)
      else (.allFailed (some e), 1)

/-- Catch-clause classifier of `src/routes/image.ts`:
`error.message === "Request timeout" || error?.response?.status === 402`. -/
def imageRetryable (e : ProviderError) : Bool :=
  e.message == "Request timeout" || e.responseStatus == some 402

/-- Catch-clause classifier of `src/routes/resume.ts` (same test as the
image route). -/
def resumeRetryable (e : ProviderError) : Bool :=
  e.message == "Request timeout" || e.responseStatus == some 402

/-- Catch-clause classifier of `src/routes/bgRemove.ts`: only
`error?.response?.status === 402` advances to the next model. -/
def bgRemoveRetryable (e : ProviderError) : Bool :=
  e.responseStatus == some 402

/-- Candidate list of the image route. -/
def imageModels : List Candidate :=
  [⟨"black-forest-labs/FLUX.1-dev", 90000⟩,
   ⟨"stabilityai/stable-diffusion-xl-base-1.0", 75000⟩,
   ⟨"runwayml/stable-diffusion-v1-5", 60000⟩]

/-- Candidate list of the background-removal route (one shared 60s timeout). -/
def bgModels : List Candidate :=
  [⟨"briaai/RMBG-2.0", 60000⟩,
   ⟨"CIDAS/clipseg-rd64-refined", 60000⟩,
   ⟨"rembg/rembg", 60000⟩]

/-- Candidate list of the resume route. -/
def resumeModels : List Candidate :=
  [⟨"deepseek-ai/DeepSeek-R1-0528", 45000⟩,
   ⟨"meta-llama/Llama-3.1-8B-Instruct", 40000⟩,
   ⟨"microsoft/DialoGPT-medium", 35000⟩]

/-- A user as the quota middleware sees it. -/
structure User where
  id : String
  isPremium : Bool
deriving DecidableEq, Repr

/-- One row of the `GenerationHistory` table (timestamps as ms since epoch). -/
structure GenerationRecord where
  id : String
  userId : String
  feature : String
  createdAt : Nat
deriving DecidableEq, Repr

/-- The `FREE_LIMITS` table of `src/middleware/rateLimit.ts`. -/
def FREE_LIMITS (feature : String) : Option Nat :=
  if feature == "article-generator" then some 10
  else if feature == "image-generator" then some 10
  else if feature == "background-remover" then some 10
  else if feature == "resume-analyzer" then some 10
  else none

/-- Effective limit, `FREE_LIMITS[feature] ?? 0`. -/
def freeLimit (feature : String) : Nat := (FREE_LIMITS feature).getD 0

/-- `prisma.generationHistory.count` with the middleware's filter:
same user, same feature, `createdAt >= startOfDay`. -/
def usageCount (db : List GenerationRecord) (uid feature : String) (startOfDay : Nat) : Nat :=
  (db.filter fun r => r.userId == uid && r.feature == feature && decide (startOfDay ≤ r.createdAt)).length

/-- Outcome of the quota middleware. -/
inductive QuotaDecision where
  | userNotFound
  | denied (limit : Nat)
  | admitted
deriving DecidableEq, Repr

/-- `enforceDailyLimit` from `src/middleware/rateLimit.ts`: 401 when the
user row is absent, premium users pass, otherwise deny (429) when
today's usage count has reached the feature's limit. -/
def enforceDailyLimit (feature : String) (user : Option User)
    (db : List GenerationRecord) (startOfDay : Nat) : QuotaDecision :=
  match user with
  | none => .userNotFound
  | some u =>
    if u.isPremium then .admitted
    else if freeLimit feature ≤ usageCount db u.id feature startOfDay then
      .denied (freeLimit feature)
    else .admitted

/-- An HTTP answer from a route: `res.json(body)` or
`res.status(status).json(errorMessage)`. -/
inductive Response (α : Type) where
  | ok (body : α)
  | error (status : Nat) (msg : String)
deriving DecidableEq, Repr

/-- What one request run produced: the HTTP answer, how many provider
candidates were attempted, and the output stored in the created
`GenerationHistory` row (`none` when no row was created). -/
structure RouteRun (α : Type) where
  response : Response α
  providerAttempts : Nat
  stored : Option α
deriving DecidableEq, Repr

/-- JavaScript `String.prototype.trim`: strip whitespace from both ends
(embedded over the character list). -/
def jsTrim (s : String) : String :=
  String.mk (((s.data.dropWhile fun c => c.isWhitespace).reverse.dropWhile
    fun c => c.isWhitespace).reverse)

/-- Catch-block message mapping of the image route. -/
def imageErrorMessage (e : ProviderError) : String :=
  if e.message == "Request timeout" then "Image generation timed out. Please try again."
  else if e.responseStatus == some 429 then "Rate limit exceeded. Please try again later."
  else "Image generation failed"

/-- The quota-denial message of `enforceDailyLimit`. -/
def quotaMessage (limit : Nat) (feature : String) : String :=
  "Free limit of " ++ toString limit ++ " per day reached for " ++ feature ++
    ". Upgrade to Premium for unlimited access."

/-- The `POST /api/image` pipeline of `src/routes/image.ts`, starting
after authentication: `enforceDailyLimit("image-generator")` runs
first, then the handler validates the prompt, walks `imageModels`, and
on success awaits the history write before answering.  `behavior` gives
each candidate's attempt result (its payload already converted to
base64); `storageOk` says whether `prisma.generationHistory.create`
succeeds.  A storage failure is caught by the route's catch block and
answered as a 500. -/
def handleImage (user : Option User) (db : List GenerationRecord) (startOfDay : Nat)
    (prompt : String) (behavior : Candidate → AttemptResult String) (storageOk : Bool) :
    RouteRun String :=
  match enforceDailyLimit "image-generator" user db startOfDay with
  | .userNotFound => ⟨.error 401 "User not found.", 0, none⟩
  | .denied l => ⟨.error 429 (quotaMessage l "image-generator"), 0, none⟩
  | .admitted =>
    if (jsTrim prompt).length < 3 then
      ⟨.error 400 "Prompt must be at least 3 characters.", 0, none⟩
    else
      let r := runFallback imageRetryable behavior imageModels none
      match r.1 with
      | .success img =>
        if img.length == 0 then ⟨.error 500 "Image generation failed", r.2, none⟩
        else if storageOk then ⟨.ok img, r.2, some img⟩
        else ⟨.error 500 "Image generation failed", r.2, none⟩
      | .allFailed (some e) => ⟨.error 500 (imageErrorMessage e), r.2, none⟩
      | .allFailed none => ⟨.error 500 "Image generation failed", r.2, none⟩

/-- One chat completion as the resume route reads it:
`completion.choices?.[0]?.message?.content`, `none` when the completion
has no choices or no message content. -/
structure ChatCompletion where
  content : Option String
deriving DecidableEq, Repr

/-- `completion.choices?.[0]?.message?.content || "No analysis returned."`
(JavaScript `||`: the empty string is falsy too). -/
def extractAnalysis (c : ChatCompletion) : String :=
  match c.content with
  | none => "No analysis returned."
  | some s => if s == "" then "No analysis returned." else s

/-- Catch-block message mapping of the resume route. -/
def resumeErrorMessage (e : ProviderError) : String :=
  if e.message == "Request timeout" then "Resume analysis timed out. Please try again."
  else if e.responseStatus == some 429 then "Rate limit exceeded. Please try again later."
  else "Resume analysis failed. Try again later."

/-- The `POST /api/resume` pipeline of `src/routes/resume.ts`, starting
after authentication and PDF text extraction (`resumeText` is the
extracted text): quota middleware, then the short-resume check, then
the fallback walk over `resumeModels`, then the placeholder
substitution, history write, and answer. -/
def handleResume (user : Option User) (db : List GenerationRecord) (startOfDay : Nat)
    (resumeText : String) (behavior : Candidate → AttemptResult ChatCompletion)
    (storageOk : Bool) : RouteRun String :=
  match enforceDailyLimit "resume-analyzer" user db startOfDay with
  | .userNotFound => ⟨.error 401 "User not found.", 0, none⟩
  | .denied l => ⟨.error 429 (quotaMessage l "resume-analyzer"), 0, none⟩
  | .admitted =>
    if resumeText.length < 100 then
      ⟨.error 400 "Resume too short or empty. Please upload a valid resume.", 0, none⟩
    else
      let r := runFallback resumeRetryable behavior resumeModels none
      match r.1 with
      | .success comp =>
        let analysis := extractAnalysis comp
        if storageOk then ⟨.ok analysis, r.2, some analysis⟩
        else ⟨.error 500 "Resume analysis failed. Try again later.", r.2, none⟩
      | .allFailed (some e) => ⟨.error 500 (resumeErrorMessage e), r.2, none⟩
      | .allFailed none => ⟨.error 500 "Resume analysis failed. Try again later.", r.2, none⟩

/-- Catch-block message mapping of the background-removal route. -/
def bgErrorMessage (e : ProviderError) : String :=
  if e.message == "Request timeout" then "Image processing timed out. Please try again."
  else if e.responseStatus == some 429 then "Rate limit exceeded. Please try again later."
  else "Failed to process image."

/-- The `POST /api/bg-remove` pipeline of `src/routes/bgRemove.ts`,
starting after authentication: quota middleware for
"background-remover", then the file-presence check (422), then the
fallback walk over `bgModels` with the 402-only classifier.  The sharp
compression, the mask-shape extraction and the alpha compositing are
collapsed into `composite`, mapping the segmentation payload to the
final PNG base64 (they are deterministic and not at issue in the
claims about this route); `hasFile` says whether a file was uploaded,
`storageOk` whether `prisma.generationHistory.create` succeeds.  The
write is awaited inside the try block before `res.json`, so its
failure reaches the catch block and answers 500. -/
def handleBgRemove (user : Option User) (db : List GenerationRecord) (startOfDay : Nat)
    (hasFile : Bool) (behavior : Candidate → AttemptResult String)
    (composite : String → String) (storageOk : Bool) : RouteRun String :=
  match enforceDailyLimit "background-remover" user db startOfDay with
  | .userNotFound => ⟨.error 401 "User not found.", 0, none⟩
  | .denied l => ⟨.error 429 (quotaMessage l "background-remover"), 0, none⟩
  | .admitted =>
    if !hasFile then ⟨.error 422 "Image file is required.", 0, none⟩
    else
      let r := runFallback bgRemoveRetryable behavior bgModels none
      match r.1 with
      | .success mask =>
        if storageOk then ⟨.ok (composite mask), r.2, some (composite mask)⟩
        else ⟨.error 500 "Failed to process image.", r.2, none⟩
      | .allFailed (some e) => ⟨.error 500 (bgErrorMessage e), r.2, none⟩
      | .allFailed none => ⟨.error 500 "Failed to process image.", r.2, none⟩

/-- The `limit` query parameter as the history route can receive it:
absent, a non-numeric string (JavaScript `Number` gives `NaN`), or a
numeric value. -/
inductive QueryParam where
  | absent
  | nonNumeric
  | num (n : Int)
deriving DecidableEq, Repr

/-- `Math.min(Number(req.query.limit) || 20, 50)`: `NaN` and `0` are
falsy, so absent, non-numeric and zero all fall back to 20 before the
cap at 50 applies. -/
def effectiveLimit (p : QueryParam) : Int :=
  let orDefault : Int :=
    match p with
    | .absent => 20
    | .nonNumeric => 20
    | .num n => if n = 0 then 20 else n
  min orDefault 50

/-- Prisma `take`: a non-negative count takes from the front of the
ordered result, a negative count takes from its end. -/
def takeInt (n : Int) (l : List α) : List α :=
  if 0 ≤ n then l.take n.toNat
  else ((l.reverse.take (-n).toNat)).reverse

/-- Insert a record into a list already sorted by `createdAt` descending. -/
def insertDesc (r : GenerationRecord) : List GenerationRecord → List GenerationRecord
  | [] => [r]
  | x :: xs => if r.createdAt ≤ x.createdAt then x :: insertDesc r xs else r :: x :: xs

/-- `orderBy: createdAt desc` of the history query. -/
def sortDesc : List GenerationRecord → List GenerationRecord
  | [] => []
  | x :: xs => insertDesc x (sortDesc xs)

/-- The `GET /api/history` query of `src/routes/history.ts`: filter the
table to the user's rows, order by `createdAt` descending, position at
the row whose id equals the cursor and skip it (`cursor` + `skip: 1`),
then `take` the effective limit. -/
def listHistory (db : List GenerationRecord) (uid : String)
    (limitParam : QueryParam) (cursor : Option String) : List GenerationRecord :=
  let sorted := sortDesc (db.filter fun r => r.userId == uid)
  let page :=
    match cursor with
    | none => sorted
    | some c => (sorted.dropWhile fun r => !(r.id == c)).drop 1
  takeInt (effectiveLimit limitParam) page

/-- Round-half-up division, `round (a / b)` computed on naturals. -/
def roundDiv (a b : Nat) : Nat := (2 * a + b) / (2 * b)

/-- Modelled from the spec: the `sharp(...).resize(1024, 1024,
fit: inside, withoutEnlargement: true)` call of `src/routes/bgRemove.ts`.
The sharp library itself is not part of this repository; its inside-fit
semantics — scale both dimensions by the same factor so the result fits
in the target box, round to whole pixels, and leave images already
inside the box untouched — is embedded here as exact rational scaling
with round-half-up. -/
def resizeInside (w h target : Nat) : Nat × Nat :=
  if w ≤ target ∧ h ≤ target then (w, h)
  else (roundDiv (w * target) (max w h), roundDiv (h * target) (max w h))

/-! Helper lemmas about sorting and paging. -/

theorem mem_insertDesc {b r : GenerationRecord} {l : List GenerationRecord}
    (h : b ∈ insertDesc r l) : b = r ∨ b ∈ l := by
  induction l with
  | nil => simpa [insertDesc] using h
  | cons x xs ih =>
    rw [insertDesc] at h
    by_cases hc : r.createdAt ≤ x.createdAt
    · rw [if_pos hc] at h
      rcases List.mem_cons.mp h with h | h
      · exact Or.inr (List.mem_cons.mpr (Or.inl h))
      · rcases ih h with h | h
        · exact Or.inl h
        · exact Or.inr (List.mem_cons.mpr (Or.inr h))
    · rw [if_neg hc] at h
      exact List.mem_cons.mp h

theorem pairwise_insertDesc (r : GenerationRecord) (l : List GenerationRecord)
    (h : l.Pairwise fun a b => b.createdAt ≤ a.createdAt) :
    (insertDesc r l).Pairwise fun a b => b.createdAt ≤ a.createdAt := by
  induction l with
  | nil => simp [insertDesc]
  | cons x xs ih =>
    rw [insertDesc]
    rcases List.pairwise_cons.mp h with ⟨hx, hxs⟩
    by_cases hc : r.createdAt ≤ x.createdAt
    · rw [if_pos hc]
      refine List.pairwise_cons.mpr ⟨?_, ih hxs⟩
      intro b hb
      rcases mem_insertDesc hb with rfl | hb
      · exact hc
      · exact hx b hb
    · rw [if_neg hc]
      refine List.pairwise_cons.mpr ⟨?_, h⟩
      intro b hb
      rcases List.mem_cons.mp hb with rfl | hb
      · exact Nat.le_of_lt (Nat.lt_of_not_le hc)
      · exact le_trans (hx b hb) (Nat.le_of_lt (Nat.lt_of_not_le hc))

theorem pairwise_sortDesc (l : List GenerationRecord) :
    (sortDesc l).Pairwise fun a b => b.createdAt ≤ a.createdAt := by
  induction l with
  | nil => exact List.Pairwise.nil
  | cons x xs ih =>
    rw [sortDesc]
    exact pairwise_insertDesc x _ ih

theorem takeInt_sublist (n : Int) (l : List α) : (takeInt n l).Sublist l := by
  unfold takeInt
  split
  · exact List.take_sublist _ _
  · have h : (l.reverse.take (-n).toNat).Sublist l.reverse := List.take_sublist _ _
    simpa using h.reverse

theorem listHistory_sublist (db : List GenerationRecord) (uid : String)
    (lp : QueryParam) (cur : Option String) :
    (listHistory db uid lp cur).Sublist (sortDesc (db.filter fun r => r.userId == uid)) := by
  unfold listHistory
  cases cur with
  | none => exact takeInt_sublist _ _
  | some c =>
    refine (takeInt_sublist _ _).trans ?_
    exact ((List.drop_sublist _ _).trans (List.dropWhile_sublist _))

theorem dropWhile_append_cons {α : Type} (p : α → Bool) :
    ∀ (pre : List α) (x : α) (post : List α), (∀ r ∈ pre, p r = true) → p x = false →
      (pre ++ x :: post).dropWhile p = x :: post := by
  intro pre
  induction pre with
  | nil => intro x post _ hx; simp [List.dropWhile_cons, hx]
  | cons a as ih =>
    intro x post hall hx
    have ha : p a = true := hall a (List.mem_cons_self a as)
    rw [List.cons_append, List.dropWhile_cons, if_pos ha]
    exact ih x post (fun r hr => hall r (List.mem_cons_of_mem a hr)) hx

/-! Claims about the fallback executor. -/

/-- Claim C1 (counterexample): the background-removal route does not
classify a timeout as retryable.  With the first model timing out and
the second model succeeding, the loop stops at the timeout and the
request fails, although an untried candidate remained. -/
theorem c1_bg_timeout_stops_counterexample :
    (fun c : Candidate => if c.model == "briaai/RMBG-2.0" then AttemptResult.timeout
        else AttemptResult.ok "MASK") ⟨"CIDAS/clipseg-rd64-refined", 60000⟩
      = AttemptResult.ok "MASK" ∧
    runFallback bgRemoveRetryable
      (fun c => if c.model == "briaai/RMBG-2.0" then AttemptResult.timeout
        else AttemptResult.ok "MASK") bgModels none
      = (ExecResult.allFailed (some timeoutError), 1) := by
  constructor <;> decide

/-- Claim C1 (amended): when the per-candidate timer fires first, the
image and resume routes classify the failure as retryable and advance
to the next candidate; the background-removal route advances only on a
402 status, so there a timeout terminates iteration immediately with
the timeout as the last error. -/
theorem c1_timeout_advance_per_route {α : Type} (behavior : Candidate → AttemptResult α)
    (c : Candidate) (rest : List Candidate) (last : Option ProviderError)
    (hb : behavior c = .timeout) :
    runFallback imageRetryable behavior (c :: rest) last
      = ((runFallback imageRetryable behavior rest (some timeoutError)).1,
         (runFallback imageRetryable behavior rest (some timeoutError)).2 + 1) ∧
    runFallback resumeRetryable behavior (c :: rest) last
      = ((runFallback resumeRetryable behavior rest (some timeoutError)).1,
         (runFallback resumeRetryable behavior rest (some timeoutError)).2 + 1) ∧
    runFallback bgRemoveRetryable behavior (c :: rest) last
      = (.allFailed (some timeoutError), 1) := by
  have h1 : imageRetryable timeoutError = true := by decide
  have h2 : resumeRetryable timeoutError = true := by decide
  have h3 : bgRemoveRetryable timeoutError = false := by decide
  refine ⟨?_, ?_, ?_⟩ <;> simp [runFallback, hb, h1, h2, h3]

/-- Witness for `c1_timeout_advance_per_route` at the background-removal
candidate list with every model timing out. -/
theorem c1_timeout_advance_per_route_witness :
    runFallback bgRemoveRetryable (fun _ => AttemptResult.timeout (α := String))
        (⟨"briaai/RMBG-2.0", 60000⟩ ::
          [⟨"CIDAS/clipseg-rd64-refined", 60000⟩, ⟨"rembg/rembg", 60000⟩]) none
      = (ExecResult.allFailed (some timeoutError), 1) :=
  (c1_timeout_advance_per_route (fun _ => AttemptResult.timeout) _ _ none rfl).2.2

/-- Claim C2: whatever the route's retryability classifier, if a
candidate completes with an error the classifier rejects, iteration
stops with exactly one attempt and the overall result is AllFailed
carrying that error — regardless of the remaining candidates. -/
theorem c2_fatal_stops_iteration {α : Type} (retryable : ProviderError → Bool)
    (behavior : Candidate → AttemptResult α) (c : Candidate) (rest : List Candidate)
    (last : Option ProviderError) (e : ProviderError)
    (hb : behavior c = .err e) (hf : retryable e = false) :
    runFallback retryable behavior (c :: rest) last = (.allFailed (some e), 1) := by
  simp [runFallback, hb, hf]

/-- Witness for `c2_fatal_stops_iteration`: the first image model fails
with a 500 while the remaining models would succeed; the executor still
answers AllFailed after one attempt. -/
theorem c2_fatal_stops_iteration_witness :
    runFallback imageRetryable
      (fun c => if c.model == "black-forest-labs/FLUX.1-dev"
        then AttemptResult.err ⟨"Internal Server Error", some 500⟩
        else AttemptResult.ok "IMG")
      imageModels none
      = (ExecResult.allFailed (some ⟨"Internal Server Error", some 500⟩), 1) :=
  c2_fatal_stops_iteration imageRetryable
    (fun c => if c.model == "black-forest-labs/FLUX.1-dev"
      then AttemptResult.err ⟨"Internal Server Error", some 500⟩
      else AttemptResult.ok "IMG")
    ⟨"black-forest-labs/FLUX.1-dev", 90000⟩
    [⟨"stabilityai/stable-diffusion-xl-base-1.0", 75000⟩,
     ⟨"runwayml/stable-diffusion-v1-5", 60000⟩]
    none ⟨"Internal Server Error", some 500⟩ (by decide) (by decide)

/-! Claims about the quota check. -/

/-- Claim C3: for a non-premium user the quota check admits exactly when
today's usage count is strictly below the feature's limit; once the
count has reached the limit, the image route answers 429 with zero
provider attempts and no history row. -/
theorem c3_quota_admission (u : User) (db : List GenerationRecord) (t : Nat)
    (feature prompt : String) (behavior : Candidate → AttemptResult String)
    (storageOk : Bool) (hp : u.isPremium = false) :
    (enforceDailyLimit feature (some u) db t = .admitted ↔
      usageCount db u.id feature t < freeLimit feature) ∧
    (freeLimit "image-generator" ≤ usageCount db u.id "image-generator" t →
      handleImage (some u) db t prompt behavior storageOk
        = ⟨.error 429 (quotaMessage (freeLimit "image-generator") "image-generator"), 0, none⟩) := by
  constructor
  · rcases le_or_lt (freeLimit feature) (usageCount db u.id feature t) with h | h
    · simp [enforceDailyLimit, hp, h, Nat.not_lt.mpr h]
    · simp [enforceDailyLimit, hp, Nat.not_le.mpr h, h]
  · intro h
    simp [handleImage, enforceDailyLimit, hp, h]

/-- Witness for `c3_quota_admission`: a non-premium user with exactly 10
image-generator records today gets a 429 and no provider call. -/
theorem c3_quota_admission_witness :
    handleImage (some ⟨"u", false⟩) (List.replicate 10 ⟨"r", "u", "image-generator", 100⟩) 0
        "a castle" (fun _ => AttemptResult.err ⟨"x", none⟩) true
      = ⟨.error 429 (quotaMessage (freeLimit "image-generator") "image-generator"), 0, none⟩ :=
  (c3_quota_admission ⟨"u", false⟩ (List.replicate 10 ⟨"r", "u", "image-generator", 100⟩)
    0 "image-generator" "a castle" (fun _ => AttemptResult.err ⟨"x", none⟩) true rfl).2
    (by decide)

/-- Claim C4: a premium user is always admitted by the quota check,
whatever the feature and whatever today's usage count. -/
theorem c4_premium_admitted (feature : String) (u : User) (db : List GenerationRecord)
    (t : Nat) (hp : u.isPremium = true) :
    enforceDailyLimit feature (some u) db t = .admitted := by
  simp [enforceDailyLimit, hp]

/-- Witness for `c4_premium_admitted`: a premium user with 25 records
today is still admitted. -/
theorem c4_premium_admitted_witness :
    enforceDailyLimit "image-generator" (some ⟨"u", true⟩)
      (List.replicate 25 ⟨"r", "u", "image-generator", 100⟩) 0 = .admitted :=
  c4_premium_admitted "image-generator" ⟨"u", true⟩ _ 0 rfl

/-- Claim C5 (counterexample): for a feature with no FREE_LIMITS entry
the limit is 0, not 10: a non-premium user with zero usage is denied,
while the claimed default of 10 would admit them (0 < 10). -/
theorem c5_unknown_feature_denied_counterexample :
    enforceDailyLimit "text-summarizer" (some ⟨"u", false⟩) [] 0 = .denied 0 ∧
    usageCount [] "u" "text-summarizer" 0 = 0 ∧ (0 : Nat) < 10 := by
  refine ⟨by decide, by decide, by decide⟩

/-- Claim C5 (amended): the daily limit is the FREE_LIMITS table value
(10 for each of the four known features), and a feature absent from the
table defaults to limit 0 — so the quota check always denies it for
non-premium users. -/
theorem c5_limit_table_default_zero :
    freeLimit "article-generator" = 10 ∧ freeLimit "image-generator" = 10 ∧
    freeLimit "background-remover" = 10 ∧ freeLimit "resume-analyzer" = 10 ∧
    (∀ f, FREE_LIMITS f = none → freeLimit f = 0) ∧
    (∀ f u db t, FREE_LIMITS f = none → u.isPremium = false →
      enforceDailyLimit f (some u) db t = .denied 0) := by
  refine ⟨by decide, by decide, by decide, by decide, fun f hf => ?_, fun f u db t hf hp => ?_⟩
  · simp [freeLimit, hf]
  · simp [enforceDailyLimit, hp, freeLimit, hf]

/-- Witness for `c5_limit_table_default_zero`: the unknown feature
"qr-generator" is denied with limit 0 even for a fresh user. -/
theorem c5_limit_table_default_zero_witness :
    enforceDailyLimit "qr-generator" (some ⟨"u", false⟩) [] 0 = .denied 0 :=
  c5_limit_table_default_zero.2.2.2.2.2 "qr-generator" ⟨"u", false⟩ [] 0 (by decide) rfl

/-! Claims about route ordering and persistence. -/

/-- Claim C6 (counterexample): prompt validation does not precede the
quota check.  With the same 1-character prompt, a non-premium user at
the limit gets the 429 quota answer while a user with empty history
gets the 400 validation answer — so the rejection depends on the usage
count, and the quota check runs first. -/
theorem c6_validation_after_quota_counterexample :
    (handleImage (some ⟨"u", false⟩) (List.replicate 10 ⟨"r", "u", "image-generator", 100⟩) 0 "a"
        (fun _ => AttemptResult.err ⟨"x", none⟩) true).response
      = .error 429 (quotaMessage 10 "image-generator") ∧
    (handleImage (some ⟨"u", false⟩) [] 0 "a"
        (fun _ => AttemptResult.err ⟨"x", none⟩) true).response
      = .error 400 "Prompt must be at least 3 characters." := by
  constructor <;> decide

/-- Claim C6 (amended): a prompt shorter than 3 characters after
trimming is rejected before any provider call and before any history
write, but only after the quota middleware has run: the 400 validation
answer appears exactly when the quota check admits, and an over-quota
user receives the 429 quota answer instead. -/
theorem c6_short_prompt_rejected (user : Option User) (db : List GenerationRecord)
    (t : Nat) (prompt : String) (behavior : Candidate → AttemptResult String)
    (storageOk : Bool) (hp : (jsTrim prompt).length < 3) :
    (handleImage user db t prompt behavior storageOk).providerAttempts = 0 ∧
    (handleImage user db t prompt behavior storageOk).stored = none ∧
    (enforceDailyLimit "image-generator" user db t = .admitted →
      (handleImage user db t prompt behavior storageOk).response
        = .error 400 "Prompt must be at least 3 characters.") ∧
    (∀ l, enforceDailyLimit "image-generator" user db t = .denied l →
      (handleImage user db t prompt behavior storageOk).response
        = .error 429 (quotaMessage l "image-generator")) := by
  unfold handleImage
  cases h : enforceDailyLimit "image-generator" user db t <;> simp [hp, h]

/-- Witness for `c6_short_prompt_rejected`: an admitted user with the
prompt "hi" gets the validation error. -/
theorem c6_short_prompt_rejected_witness :
    (handleImage (some ⟨"u", false⟩) [] 0 "hi" (fun _ => AttemptResult.ok "IMG") true).response
      = .error 400 "Prompt must be at least 3 characters." :=
  (c6_short_prompt_rejected (some ⟨"u", false⟩) [] 0 "hi" (fun _ => AttemptResult.ok "IMG") true
    (by decide)).2.2.1 (by decide)

/-- Claim C7 (counterexample): a history-write failure after a
successful provider call is answered as a 500 without the generated
output, on the image route and on the background-removal route alike:
the same request with storage working returns the output, with storage
failing it returns an error and no record. -/
theorem c7_storage_failure_hides_output_counterexample :
    (handleImage (some ⟨"u", true⟩) [] 0 "a sunset" (fun _ => AttemptResult.ok "IMG") false
      = ⟨.error 500 "Image generation failed", 1, none⟩ ∧
    handleImage (some ⟨"u", true⟩) [] 0 "a sunset" (fun _ => AttemptResult.ok "IMG") true
      = ⟨.ok "IMG", 1, some "IMG"⟩) ∧
    (handleBgRemove (some ⟨"u", true⟩) [] 0 true (fun _ => AttemptResult.ok "MASK")
        (fun m => m) false
      = ⟨.error 500 "Failed to process image.", 1, none⟩ ∧
    handleBgRemove (some ⟨"u", true⟩) [] 0 true (fun _ => AttemptResult.ok "MASK")
        (fun m => m) true
      = ⟨.ok "MASK", 1, some "MASK"⟩) := by
  refine ⟨⟨by decide, by decide⟩, ⟨by decide, by decide⟩⟩

/-- Claim C7 (amended): the image, background-removal and resume routes
all await the history write before answering, so when the write fails
after a provider success the user gets a 500 and not the output, and no
record is created — the storage failure converts the provider success
into a user-facing error instead of merely losing the history row. -/
theorem c7_storage_failure_fails_request :
    (∀ user db t prompt behavior img,
      enforceDailyLimit "image-generator" user db t = .admitted →
      ¬ (jsTrim prompt).length < 3 →
      (runFallback imageRetryable behavior imageModels none).1 = .success img →
      img.length ≠ 0 →
      handleImage user db t prompt behavior false
        = ⟨.error 500 "Image generation failed",
           (runFallback imageRetryable behavior imageModels none).2, none⟩) ∧
    (∀ user db t behavior composite mask,
      enforceDailyLimit "background-remover" user db t = .admitted →
      (runFallback bgRemoveRetryable behavior bgModels none).1 = .success mask →
      handleBgRemove user db t true behavior composite false
        = ⟨.error 500 "Failed to process image.",
           (runFallback bgRemoveRetryable behavior bgModels none).2, none⟩) ∧
    (∀ user db t text behavior comp,
      enforceDailyLimit "resume-analyzer" user db t = .admitted →
      ¬ text.length < 100 →
      (runFallback resumeRetryable behavior resumeModels none).1 = .success comp →
      handleResume user db t text behavior false
        = ⟨.error 500 "Resume analysis failed. Try again later.",
           (runFallback resumeRetryable behavior resumeModels none).2, none⟩) := by
  refine ⟨?_, ?_, ?_⟩
  · intro user db t prompt behavior img hadm hprompt hsucc hne
    simp [handleImage, hadm, hprompt, hsucc, hne]
  · intro user db t behavior composite mask hadm hsucc
    simp [handleBgRemove, hadm, hsucc]
  · intro user db t text behavior comp hadm hlen hsucc
    simp [handleResume, hadm, hlen, hsucc]

/-- Witness for `c7_storage_failure_fails_request` on the image and
background-removal routes. -/
theorem c7_storage_failure_fails_request_witness :
    handleImage (some ⟨"u", true⟩) [] 0 "a red fox" (fun _ => AttemptResult.ok "IMG") false
      = ⟨.error 500 "Image generation failed", 1, none⟩ ∧
    handleBgRemove (some ⟨"u", true⟩) [] 0 true (fun _ => AttemptResult.ok "MASK")
        (fun m => m ++ "-PNG") false
      = ⟨.error 500 "Failed to process image.", 1, none⟩ :=
  ⟨c7_storage_failure_fails_request.1 (some ⟨"u", true⟩) [] 0 "a red fox"
    (fun _ => AttemptResult.ok "IMG") "IMG" (by decide) (by decide) (by decide) (by decide),
   c7_storage_failure_fails_request.2.1 (some ⟨"u", true⟩) [] 0
    (fun _ => AttemptResult.ok "MASK") (fun m => m ++ "-PNG") "MASK" (by decide) (by decide)⟩

/-- Claim C10: when the chat completion succeeds but carries no message
content, the resume route substitutes the placeholder
"No analysis returned.", stores a history row whose output is that
placeholder, and answers success with it. -/
theorem c10_resume_placeholder (user : Option User) (db : List GenerationRecord)
    (t : Nat) (text : String) (behavior : Candidate → AttemptResult ChatCompletion)
    (hadm : enforceDailyLimit "resume-analyzer" user db t = .admitted)
    (hlen : ¬ text.length < 100)
    (hb : behavior ⟨"deepseek-ai/DeepSeek-R1-0528", 45000⟩ = .ok ⟨none⟩) :
    handleResume user db t text behavior true
      = ⟨.ok "No analysis returned.", 1, some "No analysis returned."⟩ := by
  simp [handleResume, hadm, hlen, resumeModels, runFallback, hb, extractAnalysis]

/-- Witness for `c10_resume_placeholder`: a premium user, a 120-character
resume text, and a completion with no content. -/
theorem c10_resume_placeholder_witness :
    handleResume (some ⟨"u", true⟩) [] 0 (String.mk (List.replicate 120 'x'))
        (fun _ => AttemptResult.ok ⟨none⟩) true
      = ⟨.ok "No analysis returned.", 1, some "No analysis returned."⟩ :=
  c10_resume_placeholder (some ⟨"u", true⟩) [] 0 (String.mk (List.replicate 120 'x'))
    (fun _ => AttemptResult.ok ⟨none⟩) (by decide) (by decide) rfl

/-- Claim C9 (counterexample): with an explicitly requested limit of 0
the route falls back to the default of 20 (JavaScript `0` is falsy) and
still returns a record, while the claim's "requested limit capped at
50" equals 0 and would demand an empty page. -/
theorem c9_limit_zero_counterexample :
    (listHistory [⟨"r1", "u", "image-generator", 5⟩] "u" (.num 0) none).length = 1 ∧
    min (0 : Int) 50 = 0 := by
  constructor <;> decide

/-- Claim C9 (amended): the history listing is ordered descending by
creation time; the effective page size is the requested limit capped
at 50, defaulting to 20 when the limit is absent, non-numeric, or
zero; and when a cursor is supplied the page starts strictly after the
record whose id equals the cursor. -/
theorem c9_history_listing :
    (∀ db uid lp cur,
      (listHistory db uid lp cur).Pairwise fun a b => b.createdAt ≤ a.createdAt) ∧
    (effectiveLimit .absent = 20 ∧ effectiveLimit .nonNumeric = 20 ∧
      effectiveLimit (.num 0) = 20 ∧
      ∀ n : Int, n ≠ 0 → effectiveLimit (.num n) = min n 50) ∧
    (∀ db uid lp cur, 0 ≤ effectiveLimit lp →
      (listHistory db uid lp cur).length ≤ (effectiveLimit lp).toNat) ∧
    (∀ db uid lp c pre rc post,
      sortDesc (db.filter fun r => r.userId == uid) = pre ++ rc :: post →
      (∀ r ∈ pre, r.id ≠ c) → rc.id = c →
      listHistory db uid lp (some c) = takeInt (effectiveLimit lp) post) := by
  refine ⟨?_, ⟨rfl, rfl, rfl, ?_⟩, ?_, ?_⟩
  · intro db uid lp cur
    exact List.Pairwise.sublist (listHistory_sublist db uid lp cur) (pairwise_sortDesc _)
  · intro n hn
    simp [effectiveLimit, hn]
  · intro db uid lp cur h
    have hs : (listHistory db uid lp cur).Sublist
        (takeInt (effectiveLimit lp)
          (match cur with
           | none => sortDesc (db.filter fun r => r.userId == uid)
           | some c => ((sortDesc (db.filter fun r => r.userId == uid)).dropWhile
               fun r => !(r.id == c)).drop 1)) := by
      unfold listHistory
      cases cur <;> exact List.Sublist.refl _
    have hlen := hs.length_le
    unfold takeInt at hlen
    rw [if_pos h] at hlen
    exact hlen.trans (List.length_take_le _ _)
  · intro db uid lp c pre rc post hs hpre hrc
    unfold listHistory
    rw [hs]
    show takeInt (effectiveLimit lp)
        (((pre ++ rc :: post).dropWhile fun r => !(r.id == c)).drop 1)
      = takeInt (effectiveLimit lp) post
    rw [dropWhile_append_cons _ pre rc post ?_ ?_]
    · simp
    · intro r hr
      simp [hpre r hr]
    · simp [hrc]

/-- Witness for `c9_history_listing`: a two-record table where the
cursor names the newest record, so the page is the older record. -/
theorem c9_history_listing_witness :
    effectiveLimit (.num 7) = 7 ∧
    listHistory [⟨"r1", "u", "f", 5⟩, ⟨"r2", "u", "f", 9⟩] "u" .absent (some "r2")
      = [⟨"r1", "u", "f", 5⟩] := by
  constructor
  · exact c9_history_listing.2.1.2.2.2 7 (by decide)
  · have h := c9_history_listing.2.2.2 [⟨"r1", "u", "f", 5⟩, ⟨"r2", "u", "f", 9⟩] "u" .absent
      "r2" [] ⟨"r2", "u", "f", 9⟩ [⟨"r1", "u", "f", 5⟩] (by decide) (by simp) (by decide)
    exact h.trans (by decide)

theorem roundDiv_bounds (a b : Nat) (hb : 0 < b) :
    2 * b * roundDiv a b ≤ 2 * a + b ∧ 2 * a + b < 2 * b * roundDiv a b + 2 * b := by
  have h1 := Nat.div_add_mod (2 * a + b) (2 * b)
  have h2 : (2 * a + b) % (2 * b) < 2 * b := Nat.mod_lt _ (by positivity)
  unfold roundDiv
  constructor <;> linarith [h1, h2, Nat.zero_le ((2 * a + b) % (2 * b))]

theorem roundDiv_le (a b c : Nat) (hb : 0 < b) (h : 2 * a + b < (c + 1) * (2 * b)) :
    roundDiv a b ≤ c := by
  unfold roundDiv
  exact Nat.lt_succ_iff.mp ((Nat.div_lt_iff_lt_mul (by positivity)).mpr h)

theorem roundDiv_self_mul (L : Nat) (hL : 0 < L) : roundDiv (L * 1024) L = 1024 := by
  unfold roundDiv
  have h1 : 2 * (L * 1024) + L = L * 2049 := by ring
  have h2 : 2 * L = L * 2 := by ring
  rw [h1, h2, Nat.mul_div_mul_left _ _ hL]

/-- Claim C8: the background-removal resize keeps both dimensions (never
upscales), bounds the longest side by 1024, hits exactly 1024 whenever
the original's longest side is at least 1024, and preserves the aspect
ratio within rounding (the cross products of the dimensions differ by
at most half of w + h). -/
theorem c8_resize_bounds (w h : Nat) (hw : 0 < w) (hh : 0 < h) :
    (resizeInside w h 1024).1 ≤ w ∧ (resizeInside w h 1024).2 ≤ h ∧
    max (resizeInside w h 1024).1 (resizeInside w h 1024).2 ≤ 1024 ∧
    (1024 ≤ max w h → max (resizeInside w h 1024).1 (resizeInside w h 1024).2 = 1024) ∧
    2 * (((resizeInside w h 1024).1 : Int) * h - ((resizeInside w h 1024).2 : Int) * w).natAbs
      ≤ w + h := by
  by_cases hsmall : w ≤ 1024 ∧ h ≤ 1024
  · have hres : resizeInside w h 1024 = (w, h) := by
      unfold resizeInside
      rw [if_pos hsmall]
    rw [hres]
    refine ⟨le_refl w, le_refl h, max_le hsmall.1 hsmall.2, ?_, ?_⟩
    · intro hm
      exact le_antisymm (max_le hsmall.1 hsmall.2) hm
    · have hz : ((w : Int) * h - (h : Int) * w) = 0 := by ring
      simp [hz]
  · have hres : resizeInside w h 1024
        = (roundDiv (w * 1024) (max w h), roundDiv (h * 1024) (max w h)) := by
      unfold resizeInside
      rw [if_neg hsmall]
    rw [hres]
    dsimp only
    have hL : 1025 ≤ max w h := by
      rcases Nat.lt_or_ge w 1025 with h1 | h1
      · rcases Nat.lt_or_ge h 1025 with h2 | h2
        · exact absurd ⟨by omega, by omega⟩ hsmall
        · exact le_trans h2 (le_max_right w h)
      · exact le_trans h1 (le_max_left w h)
    set L := max w h with hLdef
    have hL0 : 0 < L := by omega
    have hA : roundDiv (w * 1024) L ≤ w := by
      apply roundDiv_le _ _ _ hL0
      have hLw : 1025 * w ≤ L * w := Nat.mul_le_mul_right w hL
      nlinarith [hLw]
    have hB : roundDiv (h * 1024) L ≤ h := by
      apply roundDiv_le _ _ _ hL0
      have hLh : 1025 * h ≤ L * h := Nat.mul_le_mul_right h hL
      nlinarith [hLh]
    have hmax : max (roundDiv (w * 1024) L) (roundDiv (h * 1024) L) = 1024 := by
      rcases Nat.le_total w h with hwh | hwh
      · have hLh : L = h := hLdef.trans (max_eq_right hwh)
        have h2 : roundDiv (h * 1024) L = 1024 := by
          rw [hLh]
          exact roundDiv_self_mul h hh
        have h1 : roundDiv (w * 1024) L ≤ 1024 := by
          apply roundDiv_le _ _ _ hL0
          rw [hLh]
          omega
        rw [h2]
        exact max_eq_right h1
      · have hLw : L = w := hLdef.trans (max_eq_left hwh)
        have h1 : roundDiv (w * 1024) L = 1024 := by
          rw [hLw]
          exact roundDiv_self_mul w hw
        have h2 : roundDiv (h * 1024) L ≤ 1024 := by
          apply roundDiv_le _ _ _ hL0
          rw [hLw]
          omega
        rw [h1]
        exact max_eq_left h2
    have hbw := roundDiv_bounds (w * 1024) L hL0
    have hbh := roundDiv_bounds (h * 1024) L hL0
    set ow := roundDiv (w * 1024) L with how
    set oh := roundDiv (h * 1024) L with hohdef
    have i1 : (2 * (L : Int) * ow) ≤ 2 * ((w : Int) * 1024) + L := by exact_mod_cast hbw.1
    have i2 : (2 * ((w : Int) * 1024) + L) < 2 * (L : Int) * ow + 2 * L := by
      exact_mod_cast hbw.2
    have i3 : (2 * (L : Int) * oh) ≤ 2 * ((h : Int) * 1024) + L := by exact_mod_cast hbh.1
    have i4 : (2 * ((h : Int) * 1024) + L) < 2 * (L : Int) * oh + 2 * L := by
      exact_mod_cast hbh.2
    have hLpos : (0 : Int) < L := by exact_mod_cast hL0
    have hw0 : (0 : Int) ≤ w := by positivity
    have hh0 : (0 : Int) ≤ h := by positivity
    have p1 : (2 * (L : Int) * ow) * h ≤ (2 * ((w : Int) * 1024) + L) * h :=
      mul_le_mul_of_nonneg_right i1 hh0
    have p2 : (2 * ((h : Int) * 1024) + L) * w ≤ (2 * (L : Int) * oh + 2 * L) * w :=
      mul_le_mul_of_nonneg_right (le_of_lt i4) hw0
    have p3 : (2 * ((w : Int) * 1024) + L) * h ≤ (2 * (L : Int) * ow + 2 * L) * h :=
      mul_le_mul_of_nonneg_right (le_of_lt i2) hh0
    have p4 : (2 * (L : Int) * oh) * w ≤ (2 * ((h : Int) * 1024) + L) * w :=
      mul_le_mul_of_nonneg_right i3 hw0
    have hhi : 2 * ((ow : Int) * h - (oh : Int) * w) ≤ (w : Int) + h := by
      have key : (L : Int) * (2 * ((ow : Int) * h - (oh : Int) * w))
          ≤ (L : Int) * ((w : Int) + h) := by nlinarith [p1, p2]
      exact le_of_mul_le_mul_left key hLpos
    have hlo : -((w : Int) + h) ≤ 2 * ((ow : Int) * h - (oh : Int) * w) := by
      have key : (L : Int) * (-((w : Int) + h))
          ≤ (L : Int) * (2 * ((ow : Int) * h - (oh : Int) * w)) := by nlinarith [p3, p4]
      exact le_of_mul_le_mul_left key hLpos
    refine ⟨hA, hB, le_of_eq hmax, fun _ => hmax, ?_⟩
    omega

/-- Witness for `c8_resize_bounds` at the spec's 2000 by 2000 example:
the output is exactly 1024 by 1024. -/
theorem c8_resize_bounds_witness :
    resizeInside 2000 2000 1024 = (1024, 1024) ∧
    max (resizeInside 2000 2000 1024).1 (resizeInside 2000 2000 1024).2 = 1024 := by
  refine ⟨by decide, (c8_resize_bounds 2000 2000 (by decide) (by decide)).2.2.2.1 (by decide)⟩

end Inceptra
